import Mathlib

/-!
Verification of the atomica-mcp metadata-resolution engine.

The definitions below are a shallow embedding of the repository's Python code:
`src/atomica_mcp/dataset.py` (`resolve_pdb_metadata`, the `index` and `update`
commands) and `src/pdb_mcp/server.py` (`list_organisms_in_anage`,
`fetch_structure`).  External data sources (RCSB, PDBe, UniProt, AlphaFold,
PDB-REDO) are modelled as explicit oracle functions passed in as parameters:
for a fixed upstream state each network lookup is a function of its request.
The mining module `atomica_mcp/mining/pdb_metadata.py` is not part of the
source tree; the definitions taken from it are modelled from the spec and say
so in their doc comments.
-/

namespace AtomicaMcp

/-- Result of one mapping-source client call: either a (possibly empty) list of
UniProt accessions, or a source failure (network error, timeout, malformed
response). -/
inductive SourceResult where
  | ok (accessions : List String)
  | fail
deriving DecidableEq, Repr

/-- Tags naming the three mapping sources, in priority order. -/
inductive SourceTag where
  | sifts
  | rcsbRest
  | graphQuery
deriving DecidableEq, Repr

/-- Client-boundary normalization: a source failure is treated the same as an
empty result (spec section 4.2, failure semantics). -/
def SourceResult.toList : SourceResult → List String
  | .ok accessions => accessions
  | .fail => []

/-- Modelled from the spec: `resolve_uniprot_ids_with_fallbacks` of the missing
module `atomica_mcp/mining/pdb_metadata.py` (spec section 4.2).  The three
mapping clients are tried in fixed priority order - SIFTS cross-references,
then the RCSB REST mapping, then the RCSB graph-query mapping - and the first
non-empty list wins; an erroring client counts as empty and cascading
continues.  The function returns the resolved accession list together with the
trace of sources actually invoked, so that call counts can be reasoned about. -/
def resolve_uniprot_ids_with_fallbacks
    (sifts rcsbRest graphQuery : String → SourceResult) (pdbId : String) :
    List String × List SourceTag :=
  let r1 := (sifts pdbId).toList
  if r1 ≠ [] then (r1, [SourceTag.sifts])
  else
    let r2 := (rcsbRest pdbId).toList
    if r2 ≠ [] then (r2, [SourceTag.sifts, SourceTag.rcsbRest])
    else
      let r3 := (graphQuery pdbId).toList
      (r3, [SourceTag.sifts, SourceTag.rcsbRest, SourceTag.graphQuery])

/-- C1: for every structure identifier the cascading resolver queries the three
mapping sources in the fixed order SIFTS, then REST, then graph-query; whenever
an earlier source returns a non-empty accession list the later sources are
never invoked and that list is returned unchanged. -/
theorem resolve_uniprot_ids_with_fallbacks_short_circuit
    (sifts rcsbRest graphQuery : String → SourceResult) (pdbId : String) :
    ((sifts pdbId).toList ≠ [] →
      resolve_uniprot_ids_with_fallbacks sifts rcsbRest graphQuery pdbId
        = ((sifts pdbId).toList, [SourceTag.sifts])) ∧
    ((sifts pdbId).toList = [] → (rcsbRest pdbId).toList ≠ [] →
      resolve_uniprot_ids_with_fallbacks sifts rcsbRest graphQuery pdbId
        = ((rcsbRest pdbId).toList, [SourceTag.sifts, SourceTag.rcsbRest])) := by
  constructor
  · intro h1
    simp [resolve_uniprot_ids_with_fallbacks, h1]
  · intro h1 h2
    simp [resolve_uniprot_ids_with_fallbacks, h1, h2]

/-- Witness for C1: with a SIFTS stub answering `["P02649"]` and the other two
sources failing, resolving `1B68` invokes only SIFTS and returns the SIFTS
list unchanged. -/
theorem resolve_uniprot_ids_with_fallbacks_short_circuit_witness :
    resolve_uniprot_ids_with_fallbacks
      (fun _ => SourceResult.ok ["P02649"]) (fun _ => SourceResult.fail)
      (fun _ => SourceResult.fail) "1B68"
      = (["P02649"], [SourceTag.sifts]) :=
  (resolve_uniprot_ids_with_fallbacks_short_circuit
    (fun _ => SourceResult.ok ["P02649"]) (fun _ => SourceResult.fail)
    (fun _ => SourceResult.fail) "1B68").1 (by simp [SourceResult.toList])

/-- C6: when every mapping source returns an empty result or fails, the
cascading resolver returns the empty accession list - a value of the same type
as a successful lookup, never a null or an error value. -/
theorem resolve_uniprot_ids_with_fallbacks_exhaustion
    (sifts rcsbRest graphQuery : String → SourceResult) (pdbId : String)
    (h1 : (sifts pdbId).toList = []) (h2 : (rcsbRest pdbId).toList = [])
    (h3 : (graphQuery pdbId).toList = []) :
    (resolve_uniprot_ids_with_fallbacks sifts rcsbRest graphQuery pdbId).1 = [] := by
  simp [resolve_uniprot_ids_with_fallbacks, h1, h2, h3]

/-- Witness for C6: with SIFTS failing, REST answering an empty list and the
graph-query source failing, resolution of `9ZZZ` terminates with the empty
list. -/
theorem resolve_uniprot_ids_with_fallbacks_exhaustion_witness :
    (resolve_uniprot_ids_with_fallbacks
      (fun _ => SourceResult.fail) (fun _ => SourceResult.ok [])
      (fun _ => SourceResult.fail) "9ZZZ").1 = [] :=
  resolve_uniprot_ids_with_fallbacks_exhaustion
    (fun _ => SourceResult.fail) (fun _ => SourceResult.ok [])
    (fun _ => SourceResult.fail) "9ZZZ" rfl rfl rfl

/-- One structure entry of the per-accession structure list (spec sections 3
and 4.3): identifier, owning accession, gene symbol, experimental method,
optional resolution (diffraction methods only), deposition date and PDB-REDO
refinement data.  Resolution is modelled as a rational number. -/
structure StructureInfo where
  structure_id : String
  uniprot_id : String
  gene_symbol : Option String
  experimental_method : String
  resolution : Option ℚ
  deposition_date : Option String
  pdb_redo_available : Bool
  r_free : Option ℚ
deriving DecidableEq, Repr

/-- Modelled from the spec: the method-priority order of section 4.3 step 5 -
X-ray diffraction first, then electron microscopy, then solution NMR, then any
other experimental method; predicted entries sort after all experimental
entries regardless of method. -/
def methodPriority (method : String) : Nat :=
  if method = "PREDICTED" then 4
  else if method = "X-RAY DIFFRACTION" then 0
  else if method = "ELECTRON MICROSCOPY" then 1
  else if method = "SOLUTION NMR" then 2
  else 3

/-- Sort key of a structure entry: method priority, then - for X-ray entries -
the resolution in ascending order (spec section 4.3 step 5). -/
def structureSortKey (s : StructureInfo) : Nat × ℚ :=
  (methodPriority s.experimental_method,
   if s.experimental_method = "X-RAY DIFFRACTION" then s.resolution.getD 0 else 0)

/-- Lexicographic comparison of structure sort keys. -/
def structureLE (a b : StructureInfo) : Bool :=
  decide ((structureSortKey a).1 < (structureSortKey b).1) ||
    (decide ((structureSortKey a).1 = (structureSortKey b).1) &&
      decide ((structureSortKey a).2 ≤ (structureSortKey b).2))

theorem structureLE_trans (a b c : StructureInfo) :
    structureLE a b = true → structureLE b c = true → structureLE a c = true := by
  simp only [structureLE, Bool.or_eq_true, Bool.and_eq_true, decide_eq_true_eq]
  rintro (hab | ⟨hab, hab2⟩) (hbc | ⟨hbc, hbc2⟩)
  · exact Or.inl (lt_trans hab hbc)
  · exact Or.inl (hbc ▸ hab)
  · exact Or.inl (hab ▸ hbc)
  · exact Or.inr ⟨hab.trans hbc, hab2.trans hbc2⟩

theorem structureLE_total (a b : StructureInfo) :
    (structureLE a b || structureLE b a) = true := by
  simp only [structureLE, Bool.or_eq_true, Bool.and_eq_true, decide_eq_true_eq]
  rcases lt_trichotomy (structureSortKey a).1 (structureSortKey b).1 with h | h | h
  · exact Or.inl (Or.inl h)
  · rcases le_total (structureSortKey a).2 (structureSortKey b).2 with h2 | h2
    · exact Or.inl (Or.inr ⟨h, h2⟩)
    · exact Or.inr (Or.inr ⟨h.symm, h2⟩)
  · exact Or.inr (Or.inl h)

/-- Modelled from the spec: the final sort of section 4.3 step 5. -/
def sortStructures (structures : List StructureInfo) : List StructureInfo :=
  structures.mergeSort structureLE

/-- Modelled from the spec: `get_structures_for_uniprot` of the missing module
`atomica_mcp/mining/pdb_metadata.py` (spec section 4.3, protein-identifier
resolution).  `pdbIds` lists the experimental structure identifiers associated
with an accession, `enrich` fetches per-structure metadata (`none` when the
per-structure lookup fails, in which case the entry is dropped), `alphafold`
is the predicted-structure client (`none` when no prediction exists).  The
predicted entry, when requested and available, is appended as one more
structure; the combined list is sorted by method priority and resolution, and
the `max_structures` cap truncates the sorted list afterwards. -/
def get_structures_for_uniprot
    (enrich : String → Option StructureInfo)
    (pdbIds : String → List String)
    (alphafold : String → Option StructureInfo)
    (accession : String) (include_alphafold : Bool)
    (max_structures : Option Nat) : List StructureInfo :=
  let experimental := (pdbIds accession).filterMap enrich
  let combined :=
    match (if include_alphafold then alphafold accession else none) with
    | some af => experimental ++ [af]
    | none => experimental
  let sorted := sortStructures combined
  match max_structures with
  | some k => sorted.take k
  | none => sorted

/-- C2: the structure list returned by `get_structures_for_uniprot` is ordered
by method priority - every X-ray diffraction entry precedes every
electron-microscopy entry, which precedes every solution-NMR entry, which
precedes every other experimental entry; among the X-ray entries resolutions
are non-decreasing; and every predicted entry comes after every experimental
entry regardless of method. -/
theorem get_structures_for_uniprot_sorted
    (enrich : String → Option StructureInfo) (pdbIds : String → List String)
    (alphafold : String → Option StructureInfo) (accession : String)
    (include_alphafold : Bool) (max_structures : Option Nat) :
    (get_structures_for_uniprot enrich pdbIds alphafold accession
        include_alphafold max_structures).Pairwise (fun a b =>
      methodPriority a.experimental_method ≤ methodPriority b.experimental_method ∧
      (a.experimental_method = "X-RAY DIFFRACTION" →
        b.experimental_method = "X-RAY DIFFRACTION" →
        a.resolution.getD 0 ≤ b.resolution.getD 0)) := by
  have key : ∀ l : List StructureInfo,
      (sortStructures l).Pairwise (fun a b =>
        methodPriority a.experimental_method ≤ methodPriority b.experimental_method ∧
        (a.experimental_method = "X-RAY DIFFRACTION" →
          b.experimental_method = "X-RAY DIFFRACTION" →
          a.resolution.getD 0 ≤ b.resolution.getD 0)) := by
    intro l
    have hs := List.sorted_mergeSort structureLE_trans structureLE_total l
    refine (hs.imp ?_)
    intro a b hab
    simp only [structureLE, Bool.or_eq_true, Bool.and_eq_true, decide_eq_true_eq] at hab
    constructor
    · rcases hab with h | ⟨h, _⟩
      · exact le_of_lt h
      · exact le_of_eq h
    · intro ha hb
      rcases hab with h | ⟨_, h2⟩
      · exfalso
        simp [structureSortKey, methodPriority, ha, hb] at h
      · simpa [structureSortKey, ha, hb] using h2
  unfold get_structures_for_uniprot
  rcases max_structures with _ | k
  · exact key _
  · exact List.Pairwise.sublist (List.take_sublist k _) (key _)

/-- C3: resolving a structure list with `max_structures = k` returns exactly
`min k total_found` entries, and those entries are a prefix of the full sorted
list returned without the cap: the cap is applied after sorting. -/
theorem get_structures_for_uniprot_truncation
    (enrich : String → Option StructureInfo) (pdbIds : String → List String)
    (alphafold : String → Option StructureInfo) (accession : String)
    (include_alphafold : Bool) (k : Nat) :
    (get_structures_for_uniprot enrich pdbIds alphafold accession
        include_alphafold (some k)).length
      = min k (get_structures_for_uniprot enrich pdbIds alphafold accession
          include_alphafold none).length ∧
    (get_structures_for_uniprot enrich pdbIds alphafold accession
        include_alphafold (some k))
      <+: get_structures_for_uniprot enrich pdbIds alphafold accession
          include_alphafold none := by
  unfold get_structures_for_uniprot
  constructor
  · exact List.length_take k _
  · exact ⟨List.drop k _, List.take_append_drop k _⟩

/-- Protein annotation record returned by the single-accession UniProt client
(spec section 3, ProteinMetadata). -/
structure UniprotInfo where
  gene_symbol : Option String
  organism : Option String
  tax_id : Option Nat
  sequence_length : Nat
  ensembl_ids : List String
deriving DecidableEq, Repr

/-- One step of the batch memoization: an accession already present in the
output map (even with a `none` value recording an attempted-and-absent lookup)
is not resolved again; otherwise the single-accession client is called once
and the result recorded. -/
def batchStep (client : String → Option UniprotInfo)
    (acc : List (String × Option UniprotInfo) × Nat) (accession : String) :
    List (String × Option UniprotInfo) × Nat :=
  if (acc.1.lookup accession).isSome then acc
  else (acc.1 ++ [(accession, client accession)], acc.2 + 1)

/-- Modelled from the spec: `get_uniprot_info_batch` of the missing module
`atomica_mcp/mining/pdb_metadata.py` (spec section 4.4, batch de-duplicator).
The memoization map is threaded through one fold over the requested
accessions; a not-found accession is stored as a map entry with value `none`,
not a missing key.  The result is the map together with the number of network
calls made to the single-accession protein-annotation client. -/
def get_uniprot_info_batch (client : String → Option UniprotInfo)
    (accessions : List String) :
    List (String × Option UniprotInfo) × Nat :=
  accessions.foldl (batchStep client) ([], 0)

/-- The domain of an accession → annotation map. -/
def mapKeys (m : List (String × Option UniprotInfo)) : List String :=
  m.map Prod.fst

theorem lookup_isSome_iff_mem_keys (m : List (String × Option UniprotInfo))
    (a : String) : (m.lookup a).isSome = true ↔ a ∈ mapKeys m := by
  induction m with
  | nil => simp [mapKeys, List.lookup]
  | cons p m ih =>
      by_cases h : a = p.1
      · simp [mapKeys, List.lookup, h]
      · have hb : (a == p.1) = false := by
          simpa using h
        simp [mapKeys, List.lookup, hb, ih, h]

/-- Fold invariant of the batch de-duplicator: the key set grows to the union
of the initial keys and the processed accessions, and the call counter grows
by exactly the number of distinct accessions not already present. -/
theorem batch_fold_invariant (client : String → Option UniprotInfo)
    (accessions : List String) :
    ∀ (m : List (String × Option UniprotInfo)) (n : Nat),
      (mapKeys (accessions.foldl (batchStep client) (m, n)).1).toFinset
          = (mapKeys m).toFinset ∪ accessions.toFinset ∧
      (accessions.foldl (batchStep client) (m, n)).2
          = n + (accessions.toFinset \ (mapKeys m).toFinset).card := by
  induction accessions with
  | nil => intro m n; simp
  | cons a l ih =>
      intro m n
      by_cases h : a ∈ mapKeys m
      · have hstep : batchStep client (m, n) a = (m, n) := by
          simp [batchStep, (lookup_isSome_iff_mem_keys m a).2 h]
        rcases ih m n with ⟨hkeys, hcount⟩
        constructor
        · rw [List.foldl_cons, hstep, hkeys]
          rw [List.toFinset_cons, Finset.union_insert,
            Finset.insert_eq_self.2 (Finset.mem_union_left _ (List.mem_toFinset.2 h))]
        · rw [List.foldl_cons, hstep, hcount]
          have : (insert a l.toFinset) \ (mapKeys m).toFinset
              = l.toFinset \ (mapKeys m).toFinset := by
            rw [Finset.insert_sdiff_of_mem _ (List.mem_toFinset.2 h)]
          rw [List.toFinset_cons, this]
      · have hlook : (m.lookup a).isSome = false := by
          rcases hl : (m.lookup a).isSome with _ | _
          · rfl
          · exact absurd ((lookup_isSome_iff_mem_keys m a).1 hl) h
        have hstep : batchStep client (m, n) a
            = (m ++ [(a, client a)], n + 1) := by
          simp [batchStep, hlook]
        rcases ih (m ++ [(a, client a)]) (n + 1) with ⟨hkeys, hcount⟩
        have hkeysApp : (mapKeys (m ++ [(a, client a)])).toFinset
            = insert a (mapKeys m).toFinset := by
          simp [mapKeys, Finset.insert_eq, Finset.union_comm]
        constructor
        · rw [List.foldl_cons, hstep, hkeys, hkeysApp, List.toFinset_cons]
          rw [Finset.union_insert, Finset.insert_union]
        · rw [List.foldl_cons, hstep, hcount, hkeysApp, List.toFinset_cons]
          rw [Finset.sdiff_insert]
          by_cases hal : a ∈ l.toFinset \ (mapKeys m).toFinset
          · rw [Finset.card_erase_of_mem hal]
            have hpos : 0 < (l.toFinset \ (mapKeys m).toFinset).card :=
              Finset.card_pos.2 ⟨a, hal⟩
            have hsub : l.toFinset \ (mapKeys m).toFinset
                ⊆ insert a l.toFinset \ (mapKeys m).toFinset :=
              Finset.sdiff_subset_sdiff (Finset.subset_insert a _) (le_refl _)
            have hins : insert a l.toFinset \ (mapKeys m).toFinset
                = l.toFinset \ (mapKeys m).toFinset := by
              apply Finset.Subset.antisymm _ hsub
              intro x hx
              rcases Finset.mem_sdiff.1 hx with ⟨hx1, hx2⟩
              rcases Finset.mem_insert.1 hx1 with rfl | hx1
              · exact hal
              · exact Finset.mem_sdiff.2 ⟨hx1, hx2⟩
            rw [hins]
            omega
          · have herase : (l.toFinset \ (mapKeys m).toFinset).erase a
                = l.toFinset \ (mapKeys m).toFinset :=
              Finset.erase_eq_self.2 hal
            rw [herase]
            have hins : insert a l.toFinset \ (mapKeys m).toFinset
                = insert a (l.toFinset \ (mapKeys m).toFinset) := by
              rw [Finset.insert_sdiff_of_not_mem _ (by simpa using h)]
            have hanotin : a ∉ l.toFinset \ (mapKeys m).toFinset := hal
            rw [hins, Finset.card_insert_of_not_mem hanotin]
            omega

/-- C4: for every input collection of accessions, the batch de-duplicator
makes at most as many network calls to the protein-annotation client as there
are unique accessions in the collection, and an accession already present in
the output map is never resolved a second time within the same batch call:
re-requesting any already-processed accession changes neither the map nor the
call count. -/
theorem get_uniprot_info_batch_dedup (client : String → Option UniprotInfo)
    (accessions : List String) :
    (get_uniprot_info_batch client accessions).2 ≤ accessions.dedup.length ∧
    ∀ a ∈ accessions,
      get_uniprot_info_batch client (accessions ++ [a])
        = get_uniprot_info_batch client accessions := by
  have hinv := batch_fold_invariant client accessions [] 0
  constructor
  · rcases hinv with ⟨_, hcount⟩
    have : (get_uniprot_info_batch client accessions).2
        = (accessions.toFinset \ (∅ : Finset String)).card := by
      simpa [get_uniprot_info_batch, mapKeys] using hcount
    rw [this, Finset.sdiff_empty, List.card_toFinset]
  · intro a ha
    rcases hinv with ⟨hkeys, _⟩
    have hmem : a ∈ mapKeys (get_uniprot_info_batch client accessions).1 := by
      have : a ∈ (mapKeys (get_uniprot_info_batch client accessions).1).toFinset := by
        rw [show (get_uniprot_info_batch client accessions).1
            = (accessions.foldl (batchStep client) ([], 0)).1 from rfl, hkeys]
        exact Finset.mem_union_right _ (List.mem_toFinset.2 ha)
      exact List.mem_toFinset.1 this
    have hstep : batchStep client (get_uniprot_info_batch client accessions) a
        = get_uniprot_info_batch client accessions := by
      simp [batchStep,
        (lookup_isSome_iff_mem_keys (get_uniprot_info_batch client accessions).1 a).2 hmem]
    calc get_uniprot_info_batch client (accessions ++ [a])
        = batchStep client (get_uniprot_info_batch client accessions) a := by
          simp [get_uniprot_info_batch, List.foldl_append]
      _ = get_uniprot_info_batch client accessions := hstep

/-- Witness for C4: the duplicated request list `[P02649, Q14145, P02649]`
costs two network calls (two unique accessions), and re-requesting `P02649`
after the batch changes nothing. -/
theorem get_uniprot_info_batch_dedup_witness :
    (get_uniprot_info_batch (fun _ => none) ["P02649", "Q14145", "P02649"]).2
        ≤ (["P02649", "Q14145", "P02649"] : List String).dedup.length ∧
    get_uniprot_info_batch (fun _ => none)
        (["P02649", "Q14145", "P02649"] ++ ["P02649"])
      = get_uniprot_info_batch (fun _ => none) ["P02649", "Q14145", "P02649"] :=
  ⟨(get_uniprot_info_batch_dedup (fun _ => none) ["P02649", "Q14145", "P02649"]).1,
   (get_uniprot_info_batch_dedup (fun _ => none) ["P02649", "Q14145", "P02649"]).2
     "P02649" (by simp)⟩

/-- One AnAge database entry, as loaded into the server's `anage_data` map
(`src/pdb_mcp/server.py`).  An entry may lack a scientific name, in which case
the dictionary lookup falls back to the empty string. -/
structure AnageEntry where
  scientific_name : Option String
  common_name : Option String
  max_longevity_yrs : Option ℚ
deriving DecidableEq, Repr

/-- The ascending string comparison used by Python's `sorted` on a list of
names. -/
def stringLE (a b : String) : Bool :=
  decide (a ≤ b)

theorem stringLE_trans (a b c : String) :
    stringLE a b = true → stringLE b c = true → stringLE a c = true := by
  simp only [stringLE, decide_eq_true_eq]
  exact le_trans

theorem stringLE_total (a b : String) : (stringLE a b || stringLE b a) = true := by
  simp only [stringLE, Bool.or_eq_true, decide_eq_true_eq]
  exact le_total a b

/-- Embedding of `PDBMCPServer.list_organisms_in_anage`
(`src/pdb_mcp/server.py` lines 344-356): collect each entry's scientific name
with `""` as the missing-key default, drop falsy (empty) names, and sort. -/
def list_organisms_in_anage (anage_data : List AnageEntry) : List String :=
  let organisms := anage_data.map (fun entry => entry.scientific_name.getD "")
  (organisms.filter (fun org => org != "")).mergeSort stringLE

/-- C9: for every loaded AnAge table, `list_organisms_in_anage` returns a list
that is sorted in ascending order and contains no empty string, even when
entries of the table lack a scientific name; every returned name is the
scientific name of some entry of the table. -/
theorem list_organisms_in_anage_sorted (anage_data : List AnageEntry) :
    (list_organisms_in_anage anage_data).Sorted (· ≤ ·) ∧
    (∀ org ∈ list_organisms_in_anage anage_data,
      org ≠ "" ∧ ∃ entry ∈ anage_data, entry.scientific_name = some org) := by
  constructor
  · have hs := List.sorted_mergeSort stringLE_trans stringLE_total
      ((anage_data.map (fun entry => entry.scientific_name.getD "")).filter
        (fun org => org != ""))
    exact hs.imp (by simp [stringLE])
  · intro org hmem
    unfold list_organisms_in_anage at hmem
    rw [List.mem_mergeSort, List.mem_filter] at hmem
    rcases hmem with ⟨hmap, hne⟩
    have horg : org ≠ "" := by simpa using hne
    refine ⟨horg, ?_⟩
    rcases List.mem_map.1 hmap with ⟨entry, hentry, hval⟩
    refine ⟨entry, hentry, ?_⟩
    rcases h : entry.scientific_name with _ | s
    · rw [h] at hval
      simp at hval
      exact absurd hval.symm horg
    · rw [h] at hval
      simp at hval
      rw [hval]

/-- A polymer entity of a fetched structure (`entities` element of the
metadata dictionary returned by the structure-database client). -/
structure Entity where
  entity_id : Option Nat
  chains : List String
  organism_name : Option String
  organism_tax_id : Option Nat
  uniprot_ids : List String
deriving DecidableEq, Repr

/-- Modelled from the spec: the dictionary returned by `fetch_pdb_metadata` of
the missing module `pdb_mcp/pdb_utils.py` (spec section 6, structure metadata
lookup): found flag, title, per-method resolutions, entities, error message. -/
structure FetchedMetadata where
  found : Bool
  title : Option String
  resolution : Option (List ℚ)
  entities : List Entity
  error : Option String
deriving DecidableEq, Repr

/-- The `PDBStructure` result model of `src/pdb_mcp/server.py`. -/
structure PDBStructure where
  pdb_id : String
  found : Bool
  title : Option String
  resolution : Option (List ℚ)
  entities : List Entity
  error : Option String
deriving DecidableEq, Repr

/-- Mutable state of a `PDBMCPServer` instance: the loaded AnAge map and the
TSV-availability flag (`src/pdb_mcp/server.py`). -/
structure ServerState where
  use_tsv : Bool
  anage_data : List AnageEntry
deriving DecidableEq, Repr

/-- Embedding of `PDBMCPServer.fetch_structure` (`src/pdb_mcp/server.py` lines
264-284).  The network lookup `fetch_pdb_metadata` is an oracle of the request
and the `use_tsv` flag; the method reads but never writes the server state, so
the state is returned unchanged alongside the result. -/
def fetch_structure (fetch_pdb_metadata : String → Bool → FetchedMetadata)
    (st : ServerState) (pdbId : String) : PDBStructure × ServerState :=
  let metadata := fetch_pdb_metadata pdbId st.use_tsv
  ({ pdb_id := pdbId,
     found := metadata.found,
     title := metadata.title,
     resolution := metadata.resolution,
     entities := metadata.entities,
     error := metadata.error }, st)

/-- Modelled from the spec: the metadata object returned by `get_pdb_metadata`
of the missing module `atomica_mcp/mining/pdb_metadata.py` for an existing
structure (spec sections 3, 4.3 step 1 and the section 8 property that a found
structure carries a title). -/
structure PdbMetadata where
  pdb_id : String
  title : String
  uniprot_ids : List String
  gene_symbols : List String
  organism : Option String
  organism_tax_id : Option Nat
  structures : List StructureInfo
deriving DecidableEq, Repr

/-- The record built by `resolve_pdb_metadata` in `src/atomica_mcp/dataset.py`
(one dictionary per structure; `error := none` models the absent `error` key
of the found branch). -/
structure ResolvedPdbRecord where
  pdb_id : String
  found : Bool
  error : Option String
  title : Option String
  uniprot_ids : List String
  gene_symbols : List String
  organisms : List String
  taxonomy_ids : List Nat
  ensembl_ids : List String
  structures : List StructureInfo
deriving DecidableEq, Repr

/-- Python truthiness of an optional string: `None` and `""` give the empty
list, any other value a singleton. -/
def truthyStr : Option String → List String
  | none => []
  | some s => if s = "" then [] else [s]

/-- Python truthiness of an optional integer: `None` and `0` give the empty
list, any other value a singleton. -/
def truthyNat : Option Nat → List Nat
  | none => []
  | some n => if n = 0 then [] else [n]

/-- Embedding of `resolve_pdb_metadata` (`src/atomica_mcp/dataset.py` lines
552-607).  `get_pdb_metadata` is the comprehensive mining lookup, `none` when
the PDB ID is unknown.  The not-found branch fills every list field with the
empty list, sets the title to `None` and carries an error message; the found
branch upper-cases the identifier, copies the mined fields and has no error
key. -/
def resolve_pdb_metadata (get_pdb_metadata : String → Option PdbMetadata)
    (pdbId : String) : ResolvedPdbRecord :=
  match get_pdb_metadata pdbId with
  | none =>
      { pdb_id := pdbId
        found := false
        error := some "PDB ID not found in database"
        title := none
        uniprot_ids := []
        gene_symbols := []
        organisms := []
        taxonomy_ids := []
        ensembl_ids := []
        structures := [] }
  | some md =>
      { pdb_id := pdbId.toUpper
        found := true
        error := none
        title := some md.title
        uniprot_ids := md.uniprot_ids
        gene_symbols := md.gene_symbols
        organisms := truthyStr md.organism
        taxonomy_ids := truthyNat md.organism_tax_id
        ensembl_ids := []
        structures := md.structures }

/-- C5: for every structure identifier, `resolve_pdb_metadata` returns exactly
one of the two outcomes - `found = true` with a non-null title and no error,
or `found = false` with a non-null error message - and in the not-found case
every other field is empty or null except the identifier and the error
message. -/
theorem resolve_pdb_metadata_dichotomy
    (get_pdb_metadata : String → Option PdbMetadata) (pdbId : String) :
    ((resolve_pdb_metadata get_pdb_metadata pdbId).found = true →
      (resolve_pdb_metadata get_pdb_metadata pdbId).title.isSome = true ∧
      (resolve_pdb_metadata get_pdb_metadata pdbId).error = none) ∧
    ((resolve_pdb_metadata get_pdb_metadata pdbId).found = false →
      (resolve_pdb_metadata get_pdb_metadata pdbId).error
          = some "PDB ID not found in database" ∧
      (resolve_pdb_metadata get_pdb_metadata pdbId).title = none ∧
      (resolve_pdb_metadata get_pdb_metadata pdbId).uniprot_ids = [] ∧
      (resolve_pdb_metadata get_pdb_metadata pdbId).gene_symbols = [] ∧
      (resolve_pdb_metadata get_pdb_metadata pdbId).organisms = [] ∧
      (resolve_pdb_metadata get_pdb_metadata pdbId).taxonomy_ids = [] ∧
      (resolve_pdb_metadata get_pdb_metadata pdbId).ensembl_ids = [] ∧
      (resolve_pdb_metadata get_pdb_metadata pdbId).structures = [] ∧
      (resolve_pdb_metadata get_pdb_metadata pdbId).pdb_id = pdbId) := by
  rcases h : get_pdb_metadata pdbId with _ | md
  · constructor
    · intro hfound
      simp [resolve_pdb_metadata, h] at hfound
    · intro _
      refine ⟨?_, ?_, ?_, ?_, ?_, ?_, ?_, ?_, ?_⟩ <;> simp [resolve_pdb_metadata, h]
  · constructor
    · intro _
      constructor <;> simp [resolve_pdb_metadata, h]
    · intro hfound
      simp [resolve_pdb_metadata, h] at hfound

/-- Witness for C5: with an upstream oracle that knows no structure, resolving
`1B68` yields the not-found outcome with its error message and empty fields;
with an oracle that knows `1B68`, resolving yields a present title and no
error. -/
theorem resolve_pdb_metadata_dichotomy_witness :
    ((resolve_pdb_metadata (fun _ => none) "1b68").error
        = some "PDB ID not found in database" ∧
      (resolve_pdb_metadata (fun _ => none) "1b68").title = none ∧
      (resolve_pdb_metadata (fun _ => none) "1b68").uniprot_ids = [] ∧
      (resolve_pdb_metadata (fun _ => none) "1b68").gene_symbols = [] ∧
      (resolve_pdb_metadata (fun _ => none) "1b68").organisms = [] ∧
      (resolve_pdb_metadata (fun _ => none) "1b68").taxonomy_ids = [] ∧
      (resolve_pdb_metadata (fun _ => none) "1b68").ensembl_ids = [] ∧
      (resolve_pdb_metadata (fun _ => none) "1b68").structures = [] ∧
      (resolve_pdb_metadata (fun _ => none) "1b68").pdb_id = "1b68") ∧
    ((resolve_pdb_metadata
        (fun _ => some { pdb_id := "1B68", title := "APOLIPOPROTEIN E3",
                         uniprot_ids := ["P02649"], gene_symbols := ["APOE"],
                         organism := some "Homo sapiens",
                         organism_tax_id := some 9606,
                         structures := [] }) "1b68").title.isSome = true ∧
      (resolve_pdb_metadata
        (fun _ => some { pdb_id := "1B68", title := "APOLIPOPROTEIN E3",
                         uniprot_ids := ["P02649"], gene_symbols := ["APOE"],
                         organism := some "Homo sapiens",
                         organism_tax_id := some 9606,
                         structures := [] }) "1b68").error = none) :=
  ⟨(resolve_pdb_metadata_dichotomy (fun _ => none) "1b68").2 rfl,
   (resolve_pdb_metadata_dichotomy
      (fun _ => some { pdb_id := "1B68", title := "APOLIPOPROTEIN E3",
                       uniprot_ids := ["P02649"], gene_symbols := ["APOE"],
                       organism := some "Homo sapiens",
                       organism_tax_id := some 9606,
                       structures := [] }) "1b68").1 rfl⟩

/-- C7: no public resolution operation signals failure by exception: an
unrecognized structure identifier such as `ZZZZ` yields a well-formed record
with `found = false` and a non-empty error string, and an accession unknown to
every structure source yields the empty list - in both cases an ordinary value
of the result type. -/
theorem resolution_no_exceptions
    (get_pdb_metadata : String → Option PdbMetadata)
    (enrich : String → Option StructureInfo) (pdbIds : String → List String)
    (alphafold : String → Option StructureInfo)
    (include_alphafold : Bool) (max_structures : Option Nat)
    (hz : get_pdb_metadata "ZZZZ" = none)
    (hacc : pdbIds "INVALID123" = [])
    (haf : alphafold "INVALID123" = none) :
    ((resolve_pdb_metadata get_pdb_metadata "ZZZZ").found = false ∧
      ∃ msg, (resolve_pdb_metadata get_pdb_metadata "ZZZZ").error = some msg ∧
        msg ≠ "") ∧
    get_structures_for_uniprot enrich pdbIds alphafold "INVALID123"
        include_alphafold max_structures = [] := by
  refine ⟨⟨?_, "PDB ID not found in database", ?_, ?_⟩, ?_⟩
  · simp [resolve_pdb_metadata, hz]
  · simp [resolve_pdb_metadata, hz]
  · simp
  · unfold get_structures_for_uniprot sortStructures
    rcases include_alphafold with _ | _ <;>
      rcases max_structures with _ | k <;>
        simp [hacc, haf]

/-- Witness for C7: concrete stub oracles that know neither `ZZZZ` nor
`INVALID123` produce the not-found record and the empty structure list. -/
theorem resolution_no_exceptions_witness :
    (((resolve_pdb_metadata (fun _ => none) "ZZZZ").found = false ∧
      ∃ msg, (resolve_pdb_metadata (fun _ => none) "ZZZZ").error = some msg ∧
        msg ≠ "") ∧
    get_structures_for_uniprot (fun _ => none) (fun _ => [])
        (fun _ => none) "INVALID123" true none = []) :=
  resolution_no_exceptions (fun _ => none) (fun _ => none) (fun _ => [])
    (fun _ => none) true none rfl rfl rfl

/-- C8: calling the structure-resolution operations twice in succession
against unchanged upstream data yields identical results: `fetch_structure`
leaves the server state unchanged and its second call returns the same record,
and the two successive `resolve_pdb_metadata` records agree on title,
structures (hence experimental methods) and UniProt accessions.  Both
operations keep no hidden mutable state: their results are functions of the
upstream oracle and the identifier alone. -/
theorem resolve_structure_idempotent
    (fetch_pdb_metadata : String → Bool → FetchedMetadata) (st : ServerState)
    (get_pdb_metadata : String → Option PdbMetadata) (pdbId : String) :
    (fetch_structure fetch_pdb_metadata st pdbId).2 = st ∧
    (fetch_structure fetch_pdb_metadata
        (fetch_structure fetch_pdb_metadata st pdbId).2 pdbId).1
      = (fetch_structure fetch_pdb_metadata st pdbId).1 ∧
    (resolve_pdb_metadata get_pdb_metadata pdbId).title
      = (resolve_pdb_metadata get_pdb_metadata pdbId).title ∧
    (resolve_pdb_metadata get_pdb_metadata pdbId).structures
      = (resolve_pdb_metadata get_pdb_metadata pdbId).structures ∧
    (resolve_pdb_metadata get_pdb_metadata pdbId).uniprot_ids
      = (resolve_pdb_metadata get_pdb_metadata pdbId).uniprot_ids :=
  ⟨rfl, rfl, rfl, rfl, rfl⟩

/-- The per-row metadata payload of the persisted index (the non-key columns
built by the `index` and `update` commands of `src/atomica_mcp/dataset.py`). -/
structure RowPayload where
  metadata_found : Bool
  title : Option String
  uniprot_ids : List String
  structures_json : Option String
deriving DecidableEq, Repr

/-- One row of the persisted index: the `pdb_id` key column plus the resolved
payload. -/
structure IndexRow where
  pdb_id : String
  payload : RowPayload
deriving DecidableEq, Repr

/-- Ascending comparison of index rows by their `pdb_id` key, the sort order
of the saved index. -/
def rowLE (a b : IndexRow) : Bool :=
  decide (a.pdb_id ≤ b.pdb_id)

theorem rowLE_trans (a b c : IndexRow) :
    rowLE a b = true → rowLE b c = true → rowLE a c = true := by
  simp only [rowLE, decide_eq_true_eq]
  exact le_trans

theorem rowLE_total (a b : IndexRow) : (rowLE a b || rowLE b a) = true := by
  simp only [rowLE, Bool.or_eq_true, decide_eq_true_eq]
  exact le_total a.pdb_id b.pdb_id

/-- Embedding of the index-merge step of the `update` command
(`src/atomica_mcp/dataset.py` lines 1017-1048 and 1215-1229).  A CIF stem
whose upper-cased identifier is already in the existing index is skipped
unless `force` is set; each processed stem becomes a row keyed by its
upper-cased identifier (`resolveRow` stands for the metadata-resolution work);
with `force` the existing rows for the re-processed identifiers are removed
before concatenation; the combined frame is sorted by `pdb_id` before being
saved. -/
def updateIndex (resolveRow : String → RowPayload) (existing : List IndexRow)
    (cifStems : List String) (force : Bool) : List IndexRow :=
  let existingIds := existing.map IndexRow.pdb_id
  let newStems := cifStems.filter
    (fun s => force || decide (s.toUpper ∉ existingIds))
  let newRecords := newStems.map
    (fun s => { pdb_id := s.toUpper, payload := resolveRow s : IndexRow })
  let kept :=
    if force then
      existing.filter (fun r => decide (r.pdb_id ∉ newStems.map String.toUpper))
    else existing
  (kept ++ newRecords).mergeSort rowLE

/-- C10: the `update` command keeps `pdb_id` a unique key of the persisted
index - already-present structures are skipped unless `force` is set, and with
`force` the existing rows for the re-processed identifiers are removed before
the new rows are concatenated - and the saved index is sorted by `pdb_id`. -/
theorem updateIndex_unique_sorted (resolveRow : String → RowPayload)
    (existing : List IndexRow) (cifStems : List String) (force : Bool)
    (hex : (existing.map IndexRow.pdb_id).Nodup)
    (hstems : (cifStems.map String.toUpper).Nodup) :
    ((updateIndex resolveRow existing cifStems force).map IndexRow.pdb_id).Nodup ∧
    ((updateIndex resolveRow existing cifStems force).map IndexRow.pdb_id).Sorted
      (· ≤ ·) := by
  unfold updateIndex
  set existingIds := existing.map IndexRow.pdb_id with hids
  set newStems := cifStems.filter
    (fun s => force || decide (s.toUpper ∉ existingIds)) with hnew
  set newRecords := newStems.map
    (fun s => { pdb_id := s.toUpper, payload := resolveRow s : IndexRow }) with hrecs
  set kept :=
    (if force then
      existing.filter (fun r => decide (r.pdb_id ∉ newStems.map String.toUpper))
    else existing) with hkept
  have hperm : ((kept ++ newRecords).mergeSort rowLE).Perm (kept ++ newRecords) :=
    List.mergeSort_perm _ _
  have hmapRecs : newRecords.map IndexRow.pdb_id = newStems.map String.toUpper := by
    rw [hrecs, List.map_map]
    rfl
  have hnewNodup : (newRecords.map IndexRow.pdb_id).Nodup := by
    rw [hmapRecs, hnew]
    exact List.Nodup.sublist (List.Sublist.map String.toUpper
      (List.filter_sublist cifStems)) hstems
  have hkeptNodup : (kept.map IndexRow.pdb_id).Nodup := by
    rw [hkept]
    rcases force with _ | _
    · simpa using hex
    · simp only [if_pos rfl]
      exact List.Nodup.sublist
        (List.Sublist.map IndexRow.pdb_id (List.filter_sublist existing)) hex
  have hdisj : (kept.map IndexRow.pdb_id).Disjoint (newRecords.map IndexRow.pdb_id) := by
    rw [hmapRecs]
    intro x hxk hxn
    rcases List.mem_map.1 hxn with ⟨s, hs, hsx⟩
    rcases List.mem_map.1 hxk with ⟨r, hr, hrx⟩
    rcases force with _ | _
    · rw [hkept] at hr
      simp only [Bool.false_eq_true, if_false] at hr
      rw [hnew] at hs
      rcases List.mem_filter.1 hs with ⟨_, hcond⟩
      simp only [Bool.false_or, decide_eq_true_eq] at hcond
      exact hcond (hsx ▸ hrx ▸ List.mem_map_of_mem IndexRow.pdb_id hr)
    · rw [hkept] at hr
      simp only [if_pos rfl] at hr
      rcases List.mem_filter.1 hr with ⟨_, hcond⟩
      simp only [decide_eq_true_eq] at hcond
      exact hcond (hrx ▸ hsx ▸ List.mem_map_of_mem String.toUpper hs)
  constructor
  · rw [(hperm.map IndexRow.pdb_id).nodup_iff, List.map_append, List.nodup_append]
    exact ⟨hkeptNodup, hnewNodup, hdisj⟩
  · have hs := List.sorted_mergeSort rowLE_trans rowLE_total (kept ++ newRecords)
    exact List.Pairwise.map IndexRow.pdb_id
      (fun a b h => by simpa [rowLE] using h) hs

/-- Witness for C10: updating a one-row index for `1ABC` with the new stem
`2xyz` (no force) produces an index whose keys are unique and sorted. -/
theorem updateIndex_unique_sorted_witness :
    (((updateIndex (fun _ => ⟨false, none, [], none⟩)
        [⟨"1ABC", ⟨true, some "t", ["P02649"], none⟩⟩] ["2xyz"] false).map
          IndexRow.pdb_id).Nodup ∧
      ((updateIndex (fun _ => ⟨false, none, [], none⟩)
        [⟨"1ABC", ⟨true, some "t", ["P02649"], none⟩⟩] ["2xyz"] false).map
          IndexRow.pdb_id).Sorted (· ≤ ·)) :=
  updateIndex_unique_sorted (fun _ => ⟨false, none, [], none⟩)
    [⟨"1ABC", ⟨true, some "t", ["P02649"], none⟩⟩] ["2xyz"] false
    (by simp) (by simp)

end AtomicaMcp
